import Mathlib

/-!
Shallow embedding of the modular-kit helpers of `busportals/portals-mcp`
(`lib/modular_helpers.py` and `tools/classify_modular_edges.py`) and proofs
about them.

Conventions of the embedding:
* A Python dict whose keys are exactly the four cardinal faces
  ("+z","+x","-z","-x" — the data model guarantees every FaceMap has exactly
  four entries) is modelled by the structure `FaceMap` with one field per
  face; dict equality on that domain is structure equality.
* Transverse cell states are the strings the code compares against
  ("open", "closed", "uncertain", ...), kept as `String`.
* Python `int` is `Int` (Python `%` with a positive modulus agrees with
  `Int.emod`), Python `float` arithmetic on ratios and world coordinates is
  modelled exactly over `ℚ`.
* Fallible lookups (`dict.get`) return `Option`.
-/

/-- `EDGE_ORDER = ["+z", "+x", "-z", "-x"]` from `modular_helpers.py`. -/
def EDGE_ORDER : List String := ["+z", "+x", "-z", "-x"]

/-- An edge map: a dict with exactly the four cardinal-face keys, each bound
to the ordered list of per-transverse-cell states. -/
structure FaceMap where
  pz : List String
  px : List String
  nz : List String
  nx : List String
deriving DecidableEq, Repr

/-- Dict access `edges[EDGE_ORDER[j]]` by cycle position `j` (0 ↦ "+z",
1 ↦ "+x", 2 ↦ "-z", 3 ↦ "-x"). Positions outside 0..3 never occur. -/
def FaceMap.atIdx (m : FaceMap) : Nat → List String
  | 0 => m.pz
  | 1 => m.px
  | 2 => m.nz
  | _ => m.nx

/-- Python `edges.get(name, [])` on a four-face dict: the bound array for one
of the four face names, `[]` for any other name. -/
def FaceMap.getD (m : FaceMap) (name : String) : List String :=
  if name = "+z" then m.pz
  else if name = "+x" then m.px
  else if name = "-z" then m.nz
  else if name = "-x" then m.nx
  else []

/-- Python `edges.items()` on a four-face dict in `EDGE_ORDER` insertion
order. -/
def FaceMap.items (m : FaceMap) : List (String × List String) :=
  [("+z", m.pz), ("+x", m.px), ("-z", m.nz), ("-x", m.nx)]

/-- `rotated_edges(edges, rot_steps)` from `modular_helpers.py`:
rotate an edge map by N 90-degree clockwise steps.  `rot_steps` is reduced
mod 4; step 0 returns a copy; otherwise destination face at cycle position
`i` receives the array of the source face at position `(i - rot_steps) % 4`,
reversed when `rot_steps` is odd. -/
def rotated_edges (edges : FaceMap) (rot_steps : Int) : FaceMap :=
  let r : Nat := (rot_steps % 4).toNat
  if r = 0 then edges
  else
    let pick : Nat → List String := fun i =>
      let arr := edges.atIdx ((i + 4 - r) % 4)
      if r % 2 = 1 then arr.reverse else arr
    { pz := pick 0, px := pick 1, nz := pick 2, nx := pick 3 }

/-- The `"modular"` sub-dict of a catalog entry: `piece_type`, `edges`,
optional `tags` and optional `grid_footprint` (a two-element `[x, z]` array
of positive integers, modelled as a pair). -/
structure Modular where
  piece_type : String
  edges : FaceMap
  tags : List String
  grid_footprint : Option (Nat × Nat)
deriving DecidableEq, Repr

/-- A catalog entry as seen by the helpers: only its optional `"modular"`
sub-dict matters (`entry.get("modular")`; a missing or empty/falsy value is
`none`). -/
structure CatalogEntry where
  modular : Option Modular
deriving DecidableEq, Repr

/-- A catalog: dict key → entry, in insertion order. -/
abbrev Catalog := List (String × CatalogEntry)

/-- Dict lookup in a catalog. -/
def Catalog.find (c : Catalog) (key : String) : Option CatalogEntry :=
  (List.lookup key c)

/-- Python truthiness of an optional list/dict argument: `None` and the
empty collection are falsy. -/
def truthyList {α : Type} (o : Option (List α)) : Bool :=
  match o with
  | none => false
  | some l => !l.isEmpty

/-- Python truthiness of an optional string argument: `None` and `""` are
falsy. -/
def truthyStr (o : Option String) : Bool :=
  match o with
  | none => false
  | some s => !(s = "")

/-- One `needs_open` entry check at one rotation, from the inner loop of
`find_piece`: the entry `(edge_name, must_open)` passes unless `must_open`
holds and some cell of `edges.get(edge_name, [])` differs from `"open"`. -/
def needs_open_entry_ok (edges : FaceMap) (edge_name : String)
    (must_open : Bool) : Bool :=
  !must_open || (edges.getD edge_name).all (fun e => e == "open")

/-- The contribution of one catalog item to `find_piece`'s result list:
skip entries without a (truthy) `"modular"` dict, apply the `piece_type`
and `tags` filters, then either try all four rotations against `needs_open`
or emit `(key, 0)` when `needs_open` is absent/falsy. -/
def find_piece_entry (key : String) (entry : CatalogEntry)
    (piece_type : Option String) (needs_open : Option (List (String × Bool)))
    (tags : Option (List String)) : List (String × Int) :=
  match entry.modular with
  | none => []
  | some mod =>
    if truthyStr piece_type && !(mod.piece_type == piece_type.getD "") then []
    else if truthyList tags &&
        !((tags.getD []).all (fun t => mod.tags.contains t)) then []
    else if truthyList needs_open then
      (List.range 4).filterMap (fun rot =>
        let edges := rotated_edges mod.edges (rot : Int)
        if (needs_open.getD []).all
            (fun p => needs_open_entry_ok edges p.1 p.2)
        then some (key, (rot : Int)) else none)
    else [(key, 0)]

/-- `find_piece(catalog_items, piece_type, needs_open, tags)` from
`modular_helpers.py`: every `(key, rot_steps)` pair satisfying all
constraints, in catalog order then ascending rotation. -/
def find_piece (catalog_items : Catalog) (piece_type : Option String)
    (needs_open : Option (List (String × Bool)))
    (tags : Option (List String)) : List (String × Int) :=
  catalog_items.foldl
    (fun results kv =>
      results ++ find_piece_entry kv.1 kv.2 piece_type needs_open tags) []

/-! ## `tools/classify_modular_edges.py` -/

/-- `OPEN_THRESHOLD = 0.20` (module default). Coverage ratios are modelled
exactly over `ℚ`. -/
def OPEN_THRESHOLD : ℚ := 0.20

/-- `CLOSED_THRESHOLD = 0.70` (module default). -/
def CLOSED_THRESHOLD : ℚ := 0.70

/-- `classify_coverage(coverage)`: classify a single coverage value into
`("open", "slab_analysis")`, `("closed", "slab_analysis")` or
`("uncertain", "needs_review")`. -/
def classify_coverage (coverage : ℚ) : String × String :=
  if coverage < OPEN_THRESHOLD then ("open", "slab_analysis")
  else if coverage > CLOSED_THRESHOLD then ("closed", "slab_analysis")
  else ("uncertain", "needs_review")

/-- The per-face state dict consumed by `derive_piece_type` and
`derive_default_rotation`: each of the four faces maps to a single state
string (`"open"`, `"closed"`, `"uncertain"`, ...). -/
structure EdgeStates where
  pz : String
  px : String
  nz : String
  nx : String
deriving DecidableEq, Repr

/-- Python `edges.get(face)` on the four-face state dict. -/
def EdgeStates.get (e : EdgeStates) (face : String) : Option String :=
  if face = "+z" then some e.pz
  else if face = "+x" then some e.px
  else if face = "-z" then some e.nz
  else if face = "-x" then some e.nx
  else none

/-- `open_faces` from `derive_piece_type`: the faces of
`["+z", "+x", "-z", "-x"]` whose state equals `"open"`, in that order. -/
def open_faces (e : EdgeStates) : List String :=
  ["+z", "+x", "-z", "-x"].filter (fun face => e.get face == some "open")

/-- Python `set(a) == set(b)` for string lists. -/
def sameSet (a b : List String) : Bool :=
  a.all (fun x => b.contains x) && b.all (fun x => a.contains x)

/-- `derive_piece_type(edges)`: derive the modular piece type from
classified edges by counting open faces and, for two open faces, checking
whether they form an opposite pair. -/
def derive_piece_type (e : EdgeStates) : String :=
  let ofs := open_faces e
  let n_open := ofs.length
  if n_open = 0 then "enclosed"
  else if n_open = 1 then "end_cap"
  else if n_open = 4 then "intersection"
  else if n_open = 3 then "t_junction"
  else if n_open = 2 then
    if sameSet ofs ["+z", "-z"] || sameSet ofs ["+x", "-x"] then "straight"
    else "corner"
  else "enclosed"

/-- `pattern_from_edges` from `derive_default_rotation`: the 4-bit pattern
over `EDGE_ORDER` (1 = open, 0 = closed). -/
def pattern_from_edges (e : EdgeStates) : List Nat :=
  EDGE_ORDER.map (fun face => if e.get face == some "open" then 1 else 0)

/-- The `canonical_patterns` table of `derive_default_rotation`
(`EDGE_ORDER = ["+z", "+x", "-z", "-x"]`). -/
def canonical_patterns (piece_type : String) : Option (List Nat) :=
  if piece_type = "straight" then some [1, 0, 1, 0]
  else if piece_type = "corner" then some [1, 0, 0, 1]
  else if piece_type = "t_junction" then some [1, 0, 1, 1]
  else if piece_type = "end_cap" then some [0, 0, 1, 0]
  else none

/-- The canonical pattern read at cyclic offset `(i - rot) % 4`:
`tuple(canonical[(i - rot) % 4] for i in range(4))`. -/
def rotate_pattern (canonical : List Nat) (rot : Nat) : List Nat :=
  (List.range 4).map (fun i => canonical.getD ((i + 4 - rot % 4) % 4) 0)

/-- Whether rotating `canonical` by `rot` steps reproduces the actual
pattern of `e` — the loop condition of `derive_default_rotation`. -/
def rotation_matches (e : EdgeStates) (canonical : List Nat)
    (rot : Nat) : Bool :=
  rotate_pattern canonical rot == pattern_from_edges e

/-- `derive_default_rotation(edges, piece_type)`: 0 for the symmetric types
and unknown types; otherwise the first `rot` in 0..3 whose rotated canonical
pattern equals the actual pattern, falling back to 0 when none matches. -/
def derive_default_rotation (e : EdgeStates) (piece_type : String) : Nat :=
  if piece_type = "intersection" || piece_type = "enclosed" then 0
  else
    match canonical_patterns piece_type with
    | none => 0
    | some canonical =>
      ((List.range 4).find? (fun rot => rotation_matches e canonical rot)).getD 0

/-! ## `ModularKit` (`modular_helpers.py`) -/

/-- One record of `ModularKit._placed`.  `place_mod` appends a record
without a `"footprint"` key (`footprint = none`); `place_room` appends one
with the footprint it looked up. -/
structure Placed where
  key : String
  gx : Int
  gz : Int
  rot_steps : Int
  level : Int
  footprint : Option (Nat × Nat)
deriving DecidableEq, Repr

/-- The arguments a placement method passes to the injected callback
`self.place_fn(key, (x, y, z), facing_deg=..., scale=...)`; world
coordinates are modelled exactly over `ℚ`. -/
structure PlaceCall where
  key : String
  pos : ℚ × ℚ × ℚ
  facing_deg : Int
  scale : ℚ
deriving DecidableEq, Repr

/-- `ModularKit` state: grid cell size `[x, z]`, level height, optional
catalog (absent modelled as the empty dict, exactly as
`catalog_items or {}` does) and the append-only `_placed` list. -/
structure ModularKit where
  grid_size : ℚ × ℚ
  level_height : ℚ
  catalog_items : Catalog
  placed : List Placed
deriving Repr

/-- `ModularKit.place_mod(key, gx, gz, rot_steps, level, scale)`: place a
1×1 piece at grid cell `(gx, gz)`.  Returns the updated kit together with
the `PlaceCall` handed to the placement callback (when one is bound). -/
def ModularKit.place_mod (kit : ModularKit) (key : String) (gx gz : Int)
    (rot_steps : Int) (level : Int) (scale : ℚ) : ModularKit × PlaceCall :=
  let x := (gx : ℚ) * kit.grid_size.1
  let z := (gz : ℚ) * kit.grid_size.2
  let y := (level : ℚ) * kit.level_height
  let facing_deg := rot_steps * 90
  ({ kit with placed := kit.placed ++
      [{ key := key, gx := gx, gz := gz, rot_steps := rot_steps,
         level := level, footprint := none }] },
   { key := key, pos := (x, y, z), facing_deg := facing_deg, scale := scale })

/-- The footprint `place_room` looks up:
`self.catalog_items.get(key, {}).get("modular", {}).get("grid_footprint", [1, 1])`. -/
def ModularKit.room_footprint (kit : ModularKit) (key : String) : Nat × Nat :=
  (((kit.catalog_items.find key).bind (fun e => e.modular)).bind
    (fun m => m.grid_footprint)).getD (1, 1)

/-- `ModularKit.place_room(key, anchor_gx, anchor_gz, rot_steps, level,
scale)`: place a multi-cell room anchored at its `-X, -Z` corner; the world
position is the footprint center `(anchor + footprint/2) * grid_size`. -/
def ModularKit.place_room (kit : ModularKit) (key : String)
    (anchor_gx anchor_gz : Int) (rot_steps : Int) (level : Int)
    (scale : ℚ) : ModularKit × PlaceCall :=
  let fp := kit.room_footprint key
  let cx := (anchor_gx : ℚ) + (fp.1 : ℚ) / 2
  let cz := (anchor_gz : ℚ) + (fp.2 : ℚ) / 2
  let x := cx * kit.grid_size.1
  let z := cz * kit.grid_size.2
  let y := (level : ℚ) * kit.level_height
  let facing_deg := rot_steps * 90
  ({ kit with placed := kit.placed ++
      [{ key := key, gx := anchor_gx, gz := anchor_gz,
         rot_steps := rot_steps, level := level, footprint := some fp }] },
   { key := key, pos := (x, y, z), facing_deg := facing_deg, scale := scale })

/-- A grid cell `(gx, gz, level)`. -/
abbrev Cell := Int × Int × Int

/-- The `occupied` dict of `validate_layout`: cell → key of the last piece
that claimed it.  Updates cons to the front, so the first association found
is the current value, as in a Python dict after overwrite. -/
abbrev OccMap := List (Cell × String)

/-- Current value of a cell in the `occupied` dict (`cell in occupied` /
`occupied[cell]`). -/
def OccMap.find (occ : OccMap) (cell : Cell) : Option String :=
  (List.lookup cell occ)

/-- The overlap warning string:
`f"Overlap at grid ({cell[0]}, {cell[1]}) level {cell[2]}: {occupied[cell]} and {p['key']}"`. -/
def overlap_warning (cell : Cell) (prevKey newKey : String) : String :=
  "Overlap at grid (" ++ toString cell.1 ++ ", " ++ toString cell.2.1 ++
    ") level " ++ toString cell.2.2 ++ ": " ++ prevKey ++ " and " ++ newKey

/-- The dangling-open-edge warning string:
`f"Open edge at grid ({p['gx']}, {p['gz']}) facing {edge_name}: no neighbor at ({ncell[0]}, {ncell[1]})"`. -/
def open_edge_warning (gx gz : Int) (edge_name : String)
    (ncell : Cell) : String :=
  "Open edge at grid (" ++ toString gx ++ ", " ++ toString gz ++
    ") facing " ++ edge_name ++ ": no neighbor at (" ++ toString ncell.1 ++
    ", " ++ toString ncell.2.1 ++ ")"

/-- The overlap pass of `validate_layout` for one placed piece: walk its
footprint cells (`dx` then `dz`, row-major as the Python loops nest), warn
on already-claimed cells, and claim each cell (last writer wins). -/
def claim_cells (p : Placed) (acc : List String × OccMap) :
    List String × OccMap :=
  let fp := p.footprint.getD (1, 1)
  (List.range fp.1).foldl
    (fun acc1 dx =>
      (List.range fp.2).foldl
        (fun acc2 dz =>
          let cell : Cell := (p.gx + (dx : Int), p.gz + (dz : Int), p.level)
          let warnings :=
            match acc2.2.find cell with
            | some prevKey => acc2.1 ++ [overlap_warning cell prevKey p.key]
            | none => acc2.1
          (warnings, (cell, p.key) :: acc2.2))
        acc1)
    acc

/-- The neighbouring cell checked for an open transverse cell `i` of face
`edge_name` of piece `p` with footprint `fp`; `none` for a name outside the
four faces (unreachable: `FaceMap.items` only yields the four names). -/
def neighbor_cell (p : Placed) (fp : Nat × Nat) (edge_name : String)
    (i : Nat) : Option Cell :=
  if edge_name = "+z" then some (p.gx + (i : Int), p.gz + (fp.2 : Int), p.level)
  else if edge_name = "-z" then some (p.gx + (i : Int), p.gz - 1, p.level)
  else if edge_name = "+x" then some (p.gx + (fp.1 : Int), p.gz + (i : Int), p.level)
  else if edge_name = "-x" then some (p.gx - 1, p.gz + (i : Int), p.level)
  else none

/-- The open-edge pass of `validate_layout` for one placed piece: skip
pieces without a catalog `"modular"` dict; otherwise rotate the stored edge
map by the piece's placed rotation and warn for every open transverse cell
whose neighbouring cell is unoccupied. -/
def open_edge_warnings (catalog_items : Catalog) (occ : OccMap)
    (p : Placed) : List String :=
  match (catalog_items.find p.key).bind (fun e => e.modular) with
  | none => []
  | some mod =>
    let edges := rotated_edges mod.edges p.rot_steps
    let fp := p.footprint.getD (1, 1)
    edges.items.foldl
      (fun ws item =>
        ws ++ (List.range item.2.length).filterMap (fun i =>
          let state := item.2.getD i ""
          if state != "open" then none
          else
            match neighbor_cell p fp item.1 i with
            | none => none
            | some ncell =>
              match occ.find ncell with
              | some _ => none
              | none => some (open_edge_warning p.gx p.gz item.1 ncell)))
      []

/-- `ModularKit.validate_layout()`: the overlap pass over all placed pieces
followed, when a catalog is bound (non-empty, Python truthiness of
`self.catalog_items`), by the open-edge pass.  Returns the warning list;
empty means no issues. -/
def ModularKit.validate_layout (kit : ModularKit) : List String :=
  let overlap := kit.placed.foldl (fun acc p => claim_cells p acc) ([], [])
  let warnings := overlap.1
  let occupied := overlap.2
  if !kit.catalog_items.isEmpty then
    kit.placed.foldl
      (fun ws p => ws ++ open_edge_warnings kit.catalog_items occupied p)
      warnings
  else
    warnings

/-! ## Concrete scenario data used by the claims -/

/-- A stored edge map open on every transverse cell of face `-x` and closed
on all cells of `+z`, `+x` and `-z`. -/
def open_nx_edges : FaceMap :=
  ⟨["closed", "closed"], ["closed", "closed"],
   ["closed", "closed"], ["open", "open"]⟩

/-- A catalog entry holding `open_nx_edges`. -/
def open_nx_piece : CatalogEntry :=
  ⟨some ⟨"end_cap", open_nx_edges, [], none⟩⟩

/-- A two-piece catalog: `"cap"` is a 1×1 piece open only on the single
transverse cell of `+z`; `"plug"` is open only on `-z`. -/
def cap_catalog : Catalog :=
  [("cap", ⟨some ⟨"end_cap", ⟨["open"], ["closed"], ["closed"], ["closed"]⟩,
      [], none⟩⟩),
   ("plug", ⟨some ⟨"end_cap", ⟨["closed"], ["closed"], ["open"], ["closed"]⟩,
      [], none⟩⟩)]

/-- A kit bound to `cap_catalog`, before any placement. -/
def cap_kit : ModularKit :=
  { grid_size := (4, 4), level_height := 3, catalog_items := cap_catalog,
    placed := [] }

/-- A kit with no catalog bound, before any placement. -/
def bare_kit : ModularKit :=
  { grid_size := (4, 4), level_height := 3, catalog_items := [], placed := [] }

/-- A one-room catalog whose `"room"` piece has grid footprint `[2, 3]`. -/
def room_catalog : Catalog :=
  [("room", ⟨some ⟨"intersection", ⟨["open", "open"], ["open", "open", "open"],
      ["open", "open"], ["open", "open", "open"]⟩, [], some (2, 3)⟩⟩)]

/-- The piece-type mapping as the spec words it (spec-side definition, to
be compared with `derive_piece_type`): zero open faces → enclosed; one →
end_cap; four → intersection; three → t_junction; two → straight when the
open pair is `{+z,-z}` or `{+x,-x}`, corner otherwise. -/
def piece_type_spec (e : EdgeStates) : String :=
  let isOpen : String → Bool := fun f => e.get f == some "open"
  let n := (["+z", "+x", "-z", "-x"].filter isOpen).length
  if n = 0 then "enclosed"
  else if n = 1 then "end_cap"
  else if n = 4 then "intersection"
  else if n = 3 then "t_junction"
  else if (isOpen "+z" && isOpen "-z") || (isOpen "+x" && isOpen "-x") then
    "straight"
  else "corner"

/-! ## Helper lemmas -/

theorem rotated_edges_congr (m : FaceMap) (x y : Int) (h : x % 4 = y % 4) :
    rotated_edges m x = rotated_edges m y := by
  simp only [rotated_edges, h]

theorem rotated_edges_comp_small (m : FaceMap) (a b : Int) (ha0 : 0 ≤ a)
    (ha : a < 4) (hb0 : 0 ≤ b) (hb : b < 4) :
    rotated_edges (rotated_edges m a) b = rotated_edges m ((a + b) % 4) := by
  interval_cases a <;> interval_cases b <;>
    simp [rotated_edges, FaceMap.atIdx]

theorem rotated_edges_comp (m : FaceMap) (a b : Int) :
    rotated_edges (rotated_edges m a) b = rotated_edges m ((a + b) % 4) := by
  have hma : rotated_edges m a = rotated_edges m (a % 4) :=
    rotated_edges_congr m a (a % 4) (by omega)
  have hb4 : ∀ n : FaceMap, rotated_edges n b = rotated_edges n (b % 4) :=
    fun n => rotated_edges_congr n b (b % 4) (by omega)
  rw [hma, hb4, rotated_edges_comp_small m (a % 4) (b % 4) (by omega) (by omega)
    (by omega) (by omega)]
  exact rotated_edges_congr m ((a % 4 + b % 4) % 4) ((a + b) % 4) (by omega)

/-! ## Claim theorems -/

/-- C2: `rotated_edges` is an action of the cyclic group of order 4: for
every four-face edge map `m` and all integers `a`, `b`,
`rotated_edges (rotated_edges m a) b = rotated_edges m ((a + b) % 4)`;
`rotated_edges m 0 = m` as a value; and hence, for every rotation `r`
(in particular `r` in 0..3), `rotated_edges (rotated_edges m r) ((4 - r) % 4)`
gives back `m`. -/
theorem rotated_edges_group_action (m : FaceMap) (a b r : Int) :
    rotated_edges (rotated_edges m a) b = rotated_edges m ((a + b) % 4) ∧
    rotated_edges m 0 = m ∧
    rotated_edges (rotated_edges m r) ((4 - r) % 4) = m := by
  refine ⟨rotated_edges_comp m a b, ?_, ?_⟩
  · rfl
  · rw [rotated_edges_comp m r ((4 - r) % 4),
      rotated_edges_congr m ((r + (4 - r) % 4) % 4) 0 (by omega)]
    rfl

/-- C4: for every four-face edge map `m` and every cycle position `i`,
rotation by an odd step `r ∈ {1, 3}` binds destination face `i` to the
reverse of the source array at cycle position `(i - r) % 4`, while rotation
by `r = 2` binds it to the source array at `(i - 2) % 4` un-reversed. -/
theorem rotated_edges_mirror_parity (m : FaceMap) (i : Fin 4) :
    (rotated_edges m 1).atIdx i.val = (m.atIdx ((i.val + 4 - 1) % 4)).reverse ∧
    (rotated_edges m 3).atIdx i.val = (m.atIdx ((i.val + 4 - 3) % 4)).reverse ∧
    (rotated_edges m 2).atIdx i.val = m.atIdx ((i.val + 4 - 2) % 4) := by
  fin_cases i <;> simp [rotated_edges, FaceMap.atIdx]

/-- C9: `classify_coverage` maps a ratio `c` to `"open"` exactly when
`c < 0.20`, to `"closed"` exactly when `c > 0.70` and to `"uncertain"`
otherwise; in particular 0.19 is open, 0.20 is not open, 0.70 is not
closed, 0.71 is closed and 0.50 is uncertain. -/
theorem classify_coverage_boundaries (c : ℚ) :
    ((classify_coverage c).1 = "open" ↔ c < 0.20) ∧
    ((classify_coverage c).1 = "closed" ↔ c > 0.70) ∧
    ((classify_coverage c).1 = "uncertain" ↔ 0.20 ≤ c ∧ c ≤ 0.70) ∧
    (classify_coverage 0.19).1 = "open" ∧
    (classify_coverage 0.20).1 ≠ "open" ∧
    (classify_coverage 0.70).1 ≠ "closed" ∧
    (classify_coverage 0.71).1 = "closed" ∧
    (classify_coverage 0.50).1 = "uncertain" := by
  have hval : ∀ x : ℚ, (classify_coverage x).1 =
      (if x < 0.20 then "open" else if x > 0.70 then "closed"
       else "uncertain") := by
    intro x
    simp only [classify_coverage, OPEN_THRESHOLD, CLOSED_THRESHOLD]
    split_ifs <;> rfl
  refine ⟨?_, ?_, ?_, ?_, ?_, ?_, ?_, ?_⟩ <;> rw [hval] <;>
    split_ifs <;> simp_all <;> linarith

/-- C5: `derive_piece_type` is exactly the total function of the per-face
open pattern described by the spec (`piece_type_spec`). -/
theorem derive_piece_type_spec_eq (e : EdgeStates) :
    derive_piece_type e = piece_type_spec e := by
  have hsome : ∀ a b : String, (some a == some b) = (a == b) := fun a b => rfl
  have hpz : e.get "+z" = some e.pz := rfl
  have hpx : e.get "+x" = some e.px := rfl
  have hnz : e.get "-z" = some e.nz := rfl
  have hnx : e.get "-x" = some e.nx := rfl
  cases hb1 : e.pz == "open" <;> cases hb2 : e.px == "open" <;>
    cases hb3 : e.nz == "open" <;> cases hb4 : e.nx == "open" <;>
    simp [derive_piece_type, piece_type_spec, open_faces, sameSet,
      hpz, hpx, hnz, hnx, hsome, hb1, hb2, hb3, hb4, List.filter]

/-- C3 counterexample: for the straight pattern open on `+z` and `-z` the
derived type is `"straight"` — neither `"intersection"` nor `"enclosed"` —
yet BOTH rotations 0 and 2 read the canonical straight pattern onto the
actual pattern, so there is no unique matching rotation in 0..3. -/
theorem derive_default_rotation_straight_not_unique :
    derive_piece_type ⟨"open", "closed", "open", "closed"⟩ = "straight" ∧
    "straight" ≠ "intersection" ∧ "straight" ≠ "enclosed" ∧
    canonical_patterns "straight" = some [1, 0, 1, 0] ∧
    rotation_matches ⟨"open", "closed", "open", "closed"⟩ [1, 0, 1, 0] 0 = true ∧
    rotation_matches ⟨"open", "closed", "open", "closed"⟩ [1, 0, 1, 0] 2 = true ∧
    derive_default_rotation ⟨"open", "closed", "open", "closed"⟩ "straight" = 0 := by
  decide

/-- C3 (amended): for the derived type of any edge pattern,
`derive_default_rotation` returns 0 for `"intersection"` and `"enclosed"`;
for `"end_cap"`, `"corner"` and `"t_junction"` exactly one rotation in 0..3
maps the canonical pattern onto the actual pattern and it is the returned
one; for `"straight"` exactly two rotations match — the returned one and
the returned one plus 2. -/
theorem derive_default_rotation_matching (e : EdgeStates) :
    (derive_piece_type e = "intersection" ∨ derive_piece_type e = "enclosed" →
      derive_default_rotation e (derive_piece_type e) = 0) ∧
    (derive_piece_type e = "end_cap" ∨ derive_piece_type e = "corner" ∨
        derive_piece_type e = "t_junction" →
      (List.range 4).filter (fun rot => rotation_matches e
          ((canonical_patterns (derive_piece_type e)).getD []) rot)
        = [derive_default_rotation e (derive_piece_type e)]) ∧
    (derive_piece_type e = "straight" →
      (List.range 4).filter (fun rot => rotation_matches e
          ((canonical_patterns (derive_piece_type e)).getD []) rot)
        = [derive_default_rotation e (derive_piece_type e),
           derive_default_rotation e (derive_piece_type e) + 2]) := by
  have hsome : ∀ a b : String, (some a == some b) = (a == b) := fun a b => rfl
  have hpz : e.get "+z" = some e.pz := rfl
  have hpx : e.get "+x" = some e.px := rfl
  have hnz : e.get "-z" = some e.nz := rfl
  have hnx : e.get "-x" = some e.nx := rfl
  cases hb1 : e.pz == "open" <;> cases hb2 : e.px == "open" <;>
    cases hb3 : e.nz == "open" <;> cases hb4 : e.nx == "open" <;>
    (have h1 := hb1; have h2 := hb2; have h3 := hb3; have h4 := hb4;
     simp only [beq_iff_eq, beq_eq_false_iff_ne, ne_eq] at h1 h2 h3 h4;
     simp [derive_piece_type, derive_default_rotation, open_faces, sameSet,
       canonical_patterns, rotation_matches, rotate_pattern,
       pattern_from_edges, EDGE_ORDER, hpz, hpx, hnz, hnx, hsome,
       hb1, hb2, hb3, hb4, h1, h2, h3, h4, List.filter]) <;>
    decide


/-- C1 counterexample: for a catalog whose only piece is stored open on
every transverse cell of `-x` and closed on `+z`, `+x` and `-z`, calling
`find_piece` with `needs_open = [("+z", true)]` and no other filters
returns exactly `("K", 1)` — not `("K", 3)`: under the code's rotation
convention one step, not three, brings the `-x` opening to `+z`. -/
theorem find_piece_open_nx_not_rot3 :
    find_piece [("K", open_nx_piece)] none (some [("+z", true)]) none
      = [("K", 1)] ∧
    find_piece [("K", open_nx_piece)] none (some [("+z", true)]) none
      ≠ [("K", 3)] := by
  decide

/-- C1 (amended): for a catalog containing one piece stored open on every
transverse cell of `-x` and closed on all cells of `+z`, `+x` and `-z`,
`find_piece` with `needs_open = [("+z", true)]` and no other filters
returns exactly the pair `(key, 1)`: rotating that piece by 1 step brings
its open face to `+z`. -/
theorem find_piece_open_nx_rot1 (key : String) :
    find_piece [(key, open_nx_piece)] none (some [("+z", true)]) none
      = [(key, 1)] := by
  rfl

/-- C6: `place_room` hands the placement callback the world position
computed from the footprint center,
`((anchor_gx + fx/2) * grid_x, level * level_height, (anchor_gz + fz/2) * grid_z)`
with `[fx, fz]` the catalog footprint of the key, defaulting to `[1, 1]`
when the key or its footprint is absent; in particular footprint `[2, 3]`
anchored at `(0, 0)` with grid size `(4, 4)` gives world X = 4 and Z = 6,
not the anchor corner. -/
theorem place_room_footprint_center (gs : ℚ × ℚ) (lh : ℚ) (cat : Catalog)
    (pl : List Placed) (key : String) (ax az rot lvl : Int) (sc : ℚ) :
    ((ModularKit.mk gs lh cat pl).place_room key ax az rot lvl sc).2.pos =
      (((ax : ℚ) +
          (((ModularKit.mk gs lh cat pl).room_footprint key).1 : ℚ) / 2) * gs.1,
       (lvl : ℚ) * lh,
       ((az : ℚ) +
          (((ModularKit.mk gs lh cat pl).room_footprint key).2 : ℚ) / 2) * gs.2) ∧
    (ModularKit.mk gs lh [] pl).room_footprint key = (1, 1) ∧
    ((ModularKit.mk (4, 4) 3 room_catalog []).place_room "room" 0 0 0 0 1).2.pos
      = (4, 0, 6) := by
  refine ⟨rfl, rfl, ?_⟩
  simp [ModularKit.place_room, ModularKit.room_footprint, room_catalog,
    Catalog.find, List.lookup]
  norm_num

/-- C7: with a catalog bound, a kit holding exactly one 1×1 piece at
`(0, 0)`, rotation 0, whose edge map is open only on the single cell of
face `+z`, yields exactly one warning from `validate_layout`, identifying
the piece's coordinates, face `+z` and the missing neighbor cell `(0, 1)`;
adding a piece at `(0, 1)` whose only open cell faces `-z` empties the
warning list. -/
theorem validate_layout_dangling_edge :
    ((cap_kit.place_mod "cap" 0 0 0 0 1).1).validate_layout =
      ["Open edge at grid (0, 0) facing +z: no neighbor at (0, 1)"] ∧
    (((cap_kit.place_mod "cap" 0 0 0 0 1).1).place_mod "plug" 0 1 0 0 1).1.validate_layout
      = [] := by
  decide

/-- C8: a kit with no catalog bound holding exactly two 1×1 pieces placed
at identical coordinates `gx = 2`, `gz = 5`, `level = 0` yields exactly one
warning from `validate_layout`, naming both piece keys and the cell
`(2, 5)` at level 0. -/
theorem validate_layout_overlap :
    ((((bare_kit.place_mod "a" 2 5 0 0 1).1).place_mod "b" 2 5 0 0 1).1).validate_layout
      = ["Overlap at grid (2, 5) level 0: a and b"] := by
  decide

/-- C10: in `find_piece`, a `needs_open` entry with value `false` imposes
no constraint; an entry `(face, true)` passes exactly when every cell the
rotated edge map binds to that face equals `"open"`; a face name outside
the four cardinal faces is bound to the empty array, which is vacuously
satisfied — so a piece queried on such a face is still returned as a match
(at every rotation). -/
theorem find_piece_needs_open_semantics (edges : FaceMap) (en : String) :
    needs_open_entry_ok edges en false = true ∧
    (needs_open_entry_ok edges en true = true ↔
      ∀ cell ∈ edges.getD en, cell = "open") ∧
    (EDGE_ORDER.contains en = false → edges.getD en = []) ∧
    (edges.getD en = [] → needs_open_entry_ok edges en true = true) ∧
    find_piece [("K2", open_nx_piece)] none (some [("+y", true)]) none
      = [("K2", 0), ("K2", 1), ("K2", 2), ("K2", 3)] := by
  refine ⟨rfl, ?_, ?_, ?_, ?_⟩
  · simp [needs_open_entry_ok, List.all_eq_true]
  · intro h
    unfold FaceMap.getD
    split_ifs with h1 h2 h3 h4
    · exact absurd h (by subst h1; decide)
    · exact absurd h (by subst h2; decide)
    · exact absurd h (by subst h3; decide)
    · exact absurd h (by subst h4; decide)
    · rfl
  · intro h
    simp [needs_open_entry_ok, h]
  · decide

/-- C10 witness: at the concrete face name `"+y"`, absent from the four
cardinal faces, the stored edge map binds the empty array and the
constraint is vacuously satisfied. -/
theorem find_piece_needs_open_semantics_witness :
    open_nx_edges.getD "+y" = [] ∧
    needs_open_entry_ok open_nx_edges "+y" true = true :=
  ⟨(find_piece_needs_open_semantics open_nx_edges "+y").2.2.1 (by decide),
   (find_piece_needs_open_semantics open_nx_edges "+y").2.2.2.1
     ((find_piece_needs_open_semantics open_nx_edges "+y").2.2.1 (by decide))⟩

/-- C3 witness: for the corner pattern open on `+z` and `+x` exactly one
rotation matches and is returned; for the straight pattern open on `+z`
and `-z` the two matching rotations are the returned one and it plus 2. -/
theorem derive_default_rotation_matching_witness :
    (List.range 4).filter (fun rot =>
        rotation_matches ⟨"open", "open", "closed", "closed"⟩
          ((canonical_patterns
            (derive_piece_type ⟨"open", "open", "closed", "closed"⟩)).getD []) rot)
      = [derive_default_rotation ⟨"open", "open", "closed", "closed"⟩
          (derive_piece_type ⟨"open", "open", "closed", "closed"⟩)] ∧
    (List.range 4).filter (fun rot =>
        rotation_matches ⟨"open", "closed", "open", "closed"⟩
          ((canonical_patterns
            (derive_piece_type ⟨"open", "closed", "open", "closed"⟩)).getD []) rot)
      = [derive_default_rotation ⟨"open", "closed", "open", "closed"⟩
          (derive_piece_type ⟨"open", "closed", "open", "closed"⟩),
         derive_default_rotation ⟨"open", "closed", "open", "closed"⟩
          (derive_piece_type ⟨"open", "closed", "open", "closed"⟩) + 2] :=
  ⟨(derive_default_rotation_matching ⟨"open", "open", "closed", "closed"⟩).2.1
      (by decide),
   (derive_default_rotation_matching ⟨"open", "closed", "open", "closed"⟩).2.2
      (by decide)⟩
